import Mathlib

/-!
Verification of the coin-transfer orchestration script (src/src/main.rs)
against its natural-language specification.

The program is a straight-line workflow over an external SDK: resolve two
endpoint URLs from environment variables (with hardcoded defaults), build
clients, generate two local accounts, fund Alice via the faucet, create Bob
on-chain, and perform two sequential 1000-unit transfers from Alice to Bob,
printing balance sections along the way.

We embed the program shallowly: every external call (faucet fund, account
creation, balance query, transfer submission, wait-for-transaction) and every
console print is recorded as an `Effect` in an execution trace; the outcomes
of the external calls are supplied by an `Oracle`. Errors carry the chain of
`anyhow` context messages that the source attaches with `.context(...)`.
-/

namespace CoinTransfer

/-- Addresses of on-chain accounts (opaque in the source; represented as Nat). -/
abbrev Addr := Nat

/-- Transaction hashes returned by a submitted transfer (opaque; Nat). -/
abbrev TxHash := Nat

/-- Parsed URLs (the url crate is external; we keep the parsed form abstract
as a string and parameterise over the parse function). -/
abbrev Url := String

/-- Errors from std::env::var: the variable is absent, or present but not
valid Unicode. -/
inductive VarError where
  | notPresent
  | notUnicode
deriving DecidableEq, Repr

/-- Embedding of `std::env::var(name).as_ref().map(|s| s.as_str()).unwrap_or(default)`:
any lookup error (absent or non-Unicode) falls back to the default string. -/
def envVarOr : Except VarError String → String → String
  | .ok s, _ => s
  | .error _, dflt => dflt

/-- The process environment restricted to the two variables the program reads. -/
structure Env where
  node : Except VarError String
  faucet : Except VarError String

/-- Hardcoded default node URL (main.rs line 15). -/
def NODE_URL_DEFAULT : String := "https://fullnode.devnet.aptoslabs.com"

/-- Hardcoded default faucet URL (main.rs line 26). -/
def FAUCET_URL_DEFAULT : String := "https://faucet.devnet.aptoslabs.com"

/-- Embedding of the NODE_URL static (main.rs lines 10-18):
`Url::from_str(env_value_or_default)` where `.unwrap()` on a parse failure is
a panic, represented by `none`. -/
def NODE_URL (parseUrl : String → Option Url) (env : Env) : Option Url :=
  parseUrl (envVarOr env.node NODE_URL_DEFAULT)

/-- Embedding of the FAUCET_URL static (main.rs lines 21-29). -/
def FAUCET_URL (parseUrl : String → Option Url) (env : Env) : Option Url :=
  parseUrl (envVarOr env.faucet FAUCET_URL_DEFAULT)

/-- Embedding of aptos_sdk LocalAccount: an address derived from fresh key
material plus the SDK-managed sequence number. -/
structure LocalAccount where
  address : Addr
  seqNumber : Nat
deriving DecidableEq, Repr

/-- Modelled from the spec: the SDK-internal mutation of the sender account by
a submitted transfer (the aptos_sdk crate is not part of this repository) is
sequence-number advancement; the address is unchanged
(spec section 3: "Alice's account is mutated implicitly by the transfer
operation (e.g., sequence-number advancement managed by the SDK)"). -/
def transferUpd (a : LocalAccount) : LocalAccount :=
  { a with seqNumber := a.seqNumber + 1 }

/-- The local mutable state of main: the two account bindings. -/
structure St where
  alice : LocalAccount
  bob : LocalAccount
deriving DecidableEq, Repr

/-- Observable effects of the program: console prints and external calls. -/
inductive Effect where
  | printSection (name : String)
  | printAddr (who : String) (a : Addr)
  | printBal (who : String) (v : Nat)
  | fund (a : Addr) (amount : Nat)
  | createAccount (a : Addr)
  | getBalance (a : Addr)
  | transfer (src dst : Addr) (amount : Nat)
  | waitForTxn (h : TxHash)
deriving DecidableEq, Repr

/-- Whether an effect is a transfer submission. -/
@[simp] def Effect.isTransfer : Effect → Bool
  | .transfer _ _ _ => true
  | _ => false

/-- Whether an effect is a wait-for-transaction call. -/
@[simp] def Effect.isWait : Effect → Bool
  | .waitForTxn _ => true
  | _ => false

/-- Whether an effect is a faucet operation (fund or create_account). -/
@[simp] def Effect.isFaucetOp : Effect → Bool
  | .fund _ _ => true
  | .createAccount _ => true
  | _ => false

/-- Whether an effect is a balance query. -/
@[simp] def Effect.isGetBalance : Effect → Bool
  | .getBalance _ => true
  | _ => false

/-- Whether an effect is any network call (everything except console output). -/
@[simp] def Effect.isNetworkCall : Effect → Bool
  | .printSection _ => false
  | .printAddr _ _ => false
  | .printBal _ _ => false
  | _ => true

/-- How a run can fail: a Rust panic (URL unwrap), or an anyhow error carrying
its chain of context messages (outermost first). -/
inductive RunError where
  | panic (msg : String)
  | failure (chain : List String)
deriving DecidableEq, Repr

/-- Embedding of anyhow `.context(msg)`: wrap the underlying error with a
human-readable description of the failing step. -/
def ctxWrap (msg : String) (e : String) : RunError := .failure [msg, e]

/-- Outcomes of the external SDK/network calls, one field per call site kind;
balance queries and transfers are indexed by occurrence order. -/
structure Oracle where
  fundR : Except String Unit
  createR : Except String Unit
  balR : Nat → Except String Nat
  transferR : Nat → Except String TxHash
  waitR : TxHash → Except String Unit

/-- Result of a run: the trace of effects, each paired with the state of the
two account bindings when it was issued, and the process outcome. -/
structure RunResult where
  trace : List (Effect × St)
  result : Except RunError Unit
deriving Repr

/-- Embedding of the body of `main` (main.rs lines 32-128) after client
construction: the straight-line workflow, recording every print and external
call, aborting at the first failed call with the context message the source
attaches at that call site. -/
def runMain (o : Oracle) (a0 b0 : LocalAccount) : RunResult :=
  let st0 : St := ⟨a0, b0⟩
  let tr0 : List (Effect × St) :=
    [(.printSection "Local Accounts", st0),
     (.printAddr "Alice" a0.address, st0),
     (.printAddr "Bob" b0.address, st0),
     (.fund a0.address 20000, st0)]
  match o.fundR with
  | .error e => ⟨tr0, .error (ctxWrap "Failed to fund Alice" e)⟩
  | .ok _ =>
  let tr1 := tr0 ++ [(.createAccount b0.address, st0)]
  match o.createR with
  | .error e => ⟨tr1, .error (ctxWrap "Failed to create onchain account for Bob" e)⟩
  | .ok _ =>
  let tr2 := tr1 ++ [(.printSection "Initial balances", st0), (.getBalance st0.alice.address, st0)]
  match o.balR 0 with
  | .error e => ⟨tr2, .error (ctxWrap "Could not fetch Alice\x27s balance" e)⟩
  | .ok v0 =>
  let tr3 := tr2 ++ [(.printBal "Alice" v0, st0), (.getBalance st0.bob.address, st0)]
  match o.balR 1 with
  | .error e => ⟨tr3, .error (ctxWrap "Could not fetch Bob\x27s balance" e)⟩
  | .ok v1 =>
  let tr4 := tr3 ++ [(.printBal "Bob" v1, st0)]
  match o.transferR 0 with
  | .error e =>
      ⟨tr4 ++ [(.transfer st0.alice.address st0.bob.address 1000, st0)],
       .error (ctxWrap "Failed to transfer coins from Alice to Bob" e)⟩
  | .ok h1 =>
  let st1 : St := ⟨transferUpd st0.alice, st0.bob⟩
  let tr5 := tr4 ++ [(.transfer st0.alice.address st0.bob.address 1000, st1), (.waitForTxn h1, st1)]
  match o.waitR h1 with
  | .error e => ⟨tr5, .error (ctxWrap "Failed to wait for transaction" e)⟩
  | .ok _ =>
  let tr6 := tr5 ++ [(.printSection "Intermediate balances", st1), (.getBalance st1.alice.address, st1)]
  match o.balR 2 with
  | .error e => ⟨tr6, .error (ctxWrap "Could not fetch Alice\x27s balance" e)⟩
  | .ok v2 =>
  let tr7 := tr6 ++ [(.printBal "Alice" v2, st1), (.getBalance st1.bob.address, st1)]
  match o.balR 3 with
  | .error e => ⟨tr7, .error (ctxWrap "Could not fetch Bob\x27s balance" e)⟩
  | .ok v3 =>
  let tr8 := tr7 ++ [(.printBal "Bob" v3, st1)]
  match o.transferR 1 with
  | .error e =>
      ⟨tr8 ++ [(.transfer st1.alice.address st1.bob.address 1000, st1)],
       .error (ctxWrap "Failed to transfer coins from Alice to Bob" e)⟩
  | .ok h2 =>
  let st2 : St := ⟨transferUpd st1.alice, st1.bob⟩
  let tr9 := tr8 ++ [(.transfer st1.alice.address st1.bob.address 1000, st2), (.waitForTxn h2, st2)]
  match o.waitR h2 with
  | .error e => ⟨tr9, .error (ctxWrap "Failed to wait for transaction" e)⟩
  | .ok _ =>
  let tr10 := tr9 ++ [(.printSection "Final balances", st2), (.getBalance st2.alice.address, st2)]
  match o.balR 4 with
  | .error e => ⟨tr10, .error (ctxWrap "Could not fetch Alice\x27s balance" e)⟩
  | .ok v4 =>
  let tr11 := tr10 ++ [(.printBal "Alice" v4, st2), (.getBalance st2.bob.address, st2)]
  match o.balR 5 with
  | .error e => ⟨tr11, .error (ctxWrap "Could not fetch Bob\x27s balance" e)⟩
  | .ok v5 =>
  ⟨tr11 ++ [(.printBal "Bob" v5, st2)], .ok ()⟩

/-- Embedding of the whole process (main.rs lines 31-128): the two lazy URL
statics are forced during client construction (lines 34-35), before any other
statement runs; a parse failure there is an `unwrap` panic with an empty
trace (nothing was printed, no network call made). Otherwise the workflow
`runMain` runs. -/
def runProgram (parseUrl : String → Option Url) (env : Env) (o : Oracle)
    (a0 b0 : LocalAccount) : RunResult :=
  match NODE_URL parseUrl env, FAUCET_URL parseUrl env with
  | some _, some _ => runMain o a0 b0
  | _, _ => ⟨[], .error (.panic "called Result unwrap on an Err value")⟩

/-- Events of a run: the effects of the trace, without the state snapshots. -/
def events (r : RunResult) : List Effect := r.trace.map Prod.fst

/-- Names of the printed sections of a run, in order. -/
def sectionsOf (es : List Effect) : List String :=
  es.filterMap fun e =>
    match e with
    | .printSection n => some n
    | _ => none

/-- The six context messages the source attaches to fallible workflow calls. -/
def stepMessages : List String :=
  ["Failed to fund Alice",
   "Failed to create onchain account for Bob",
   "Could not fetch Alice\x27s balance",
   "Could not fetch Bob\x27s balance",
   "Failed to transfer coins from Alice to Bob",
   "Failed to wait for transaction"]

/-- Trace of a fully successful run, as a function of the two accounts, the
six queried balances and the two transaction hashes. -/
def okTrace (a0 b0 : LocalAccount) (v0 v1 v2 v3 v4 v5 : Nat) (h1 h2 : TxHash) :
    List (Effect × St) :=
  let st0 : St := ⟨a0, b0⟩
  let st1 : St := ⟨transferUpd a0, b0⟩
  let st2 : St := ⟨transferUpd (transferUpd a0), b0⟩
  [(.printSection "Local Accounts", st0),
   (.printAddr "Alice" a0.address, st0),
   (.printAddr "Bob" b0.address, st0),
   (.fund a0.address 20000, st0),
   (.createAccount b0.address, st0),
   (.printSection "Initial balances", st0),
   (.getBalance a0.address, st0),
   (.printBal "Alice" v0, st0),
   (.getBalance b0.address, st0),
   (.printBal "Bob" v1, st0),
   (.transfer a0.address b0.address 1000, st1),
   (.waitForTxn h1, st1),
   (.printSection "Intermediate balances", st1),
   (.getBalance a0.address, st1),
   (.printBal "Alice" v2, st1),
   (.getBalance b0.address, st1),
   (.printBal "Bob" v3, st1),
   (.transfer a0.address b0.address 1000, st2),
   (.waitForTxn h2, st2),
   (.printSection "Final balances", st2),
   (.getBalance a0.address, st2),
   (.printBal "Alice" v4, st2),
   (.getBalance b0.address, st2),
   (.printBal "Bob" v5, st2)]

/-- Concrete all-successful oracle used in witnesses. -/
def okOracle : Oracle :=
  { fundR := .ok ()
    createR := .ok ()
    balR := fun i => .ok (100 + i)
    transferR := fun i => .ok (42 + i)
    waitR := fun _ => .ok () }

/-- Oracle whose faucet funding call fails; used in witnesses. -/
def failFundOracle : Oracle := { okOracle with fundR := .error "refused" }

/-- Oracle whose second transfer (and only it) fails; used in witnesses. -/
def failSecondTransferOracle : Oracle :=
  { okOracle with transferR := fun i => if i = 1 then .error "rejected" else .ok 42 }

/-- Parse function accepting every string unchanged; used in witnesses. -/
def idParse : String → Option Url := fun s => some s

/-- Parse function rejecting every string; used in witnesses. -/
def noneParse : String → Option Url := fun _ => none

/-- Concrete Alice account used in witnesses. -/
def aliceW : LocalAccount := ⟨1, 0⟩

/-- Concrete Bob account used in witnesses. -/
def bobW : LocalAccount := ⟨2, 0⟩

/-- Inversion for successful runs: every external call succeeded and the trace
is exactly `okTrace`. -/
theorem runMain_ok_shape (o : Oracle) (a0 b0 : LocalAccount)
    (h : (runMain o a0 b0).result = .ok ()) :
    ∃ v0 v1 v2 v3 v4 v5 h1 h2,
      o.fundR = .ok () ∧ o.createR = .ok () ∧
      o.balR 0 = .ok v0 ∧ o.balR 1 = .ok v1 ∧
      o.transferR 0 = .ok h1 ∧ o.waitR h1 = .ok () ∧
      o.balR 2 = .ok v2 ∧ o.balR 3 = .ok v3 ∧
      o.transferR 1 = .ok h2 ∧ o.waitR h2 = .ok () ∧
      o.balR 4 = .ok v4 ∧ o.balR 5 = .ok v5 ∧
      runMain o a0 b0 = ⟨okTrace a0 b0 v0 v1 v2 v3 v4 v5 h1 h2, .ok ()⟩ := by
  unfold runMain at h ⊢
  repeat' split at h
  all_goals simp_all
  all_goals rfl

/-- C1: On a successful run, the orchestrator performs exactly two transfers of
1000 units each from Alice's account to Bob's address, in strict sequence, and
after each transfer submission it blocks on wait-for-transaction for the
returned transaction handle before the next balance queries are issued: the
event list decomposes as pre/mid/post segments containing no transfer and no
wait, with each transfer immediately followed by the wait on its own handle,
and the next balance section opening only afterwards. -/
theorem transfer_sequence_on_success (o : Oracle) (a0 b0 : LocalAccount)
    (h : (runMain o a0 b0).result = .ok ()) :
    ∃ h1 h2 pre mid post,
      o.transferR 0 = .ok h1 ∧ o.transferR 1 = .ok h2 ∧
      events (runMain o a0 b0) =
        pre ++ [.transfer a0.address b0.address 1000, .waitForTxn h1]
            ++ mid ++ [.transfer a0.address b0.address 1000, .waitForTxn h2] ++ post ∧
      (∀ e ∈ pre ++ mid ++ post, e.isTransfer = false ∧ e.isWait = false) ∧
      mid.take 2 = [.printSection "Intermediate balances", .getBalance a0.address] ∧
      post.take 2 = [.printSection "Final balances", .getBalance a0.address] := by
  obtain ⟨v0, v1, v2, v3, v4, v5, h1, h2, hfd, hcr, hb0, hb1, ht0, hw1, hb2, hb3,
    ht1, hw2, hb4, hb5, hrun⟩ := runMain_ok_shape o a0 b0 h
  refine ⟨h1, h2,
    [.printSection "Local Accounts", .printAddr "Alice" a0.address,
     .printAddr "Bob" b0.address, .fund a0.address 20000, .createAccount b0.address,
     .printSection "Initial balances", .getBalance a0.address, .printBal "Alice" v0,
     .getBalance b0.address, .printBal "Bob" v1],
    [.printSection "Intermediate balances", .getBalance a0.address,
     .printBal "Alice" v2, .getBalance b0.address, .printBal "Bob" v3],
    [.printSection "Final balances", .getBalance a0.address,
     .printBal "Alice" v4, .getBalance b0.address, .printBal "Bob" v5],
    ht0, ht1, ?_, ?_, rfl, rfl⟩
  · rw [events, hrun]
    rfl
  · simp [List.forall_mem_append, List.forall_mem_cons]

/-- Witness for C1 at a concrete all-successful oracle. -/
theorem transfer_sequence_on_success_witness :
    (runMain okOracle aliceW bobW).result = .ok () ∧
    (∃ h1 h2 pre mid post,
      okOracle.transferR 0 = .ok h1 ∧ okOracle.transferR 1 = .ok h2 ∧
      events (runMain okOracle aliceW bobW) =
        pre ++ [.transfer aliceW.address bobW.address 1000, .waitForTxn h1]
            ++ mid ++ [.transfer aliceW.address bobW.address 1000, .waitForTxn h2] ++ post ∧
      (∀ e ∈ pre ++ mid ++ post, e.isTransfer = false ∧ e.isWait = false) ∧
      mid.take 2 = [.printSection "Intermediate balances", .getBalance aliceW.address] ∧
      post.take 2 = [.printSection "Final balances", .getBalance aliceW.address]) :=
  ⟨rfl, transfer_sequence_on_success okOracle aliceW bobW rfl⟩

/-- C4: On a successful run, the program prints exactly four sections, in this
fixed order: Local Accounts, Initial balances, Intermediate balances, Final
balances, and no others. -/
theorem four_sections_in_order (o : Oracle) (a0 b0 : LocalAccount)
    (h : (runMain o a0 b0).result = .ok ()) :
    sectionsOf (events (runMain o a0 b0)) =
      ["Local Accounts", "Initial balances", "Intermediate balances", "Final balances"] := by
  obtain ⟨v0, v1, v2, v3, v4, v5, h1, h2, hfd, hcr, hb0, hb1, ht0, hw1, hb2, hb3,
    ht1, hw2, hb4, hb5, hrun⟩ := runMain_ok_shape o a0 b0 h
  rw [events, hrun]
  rfl

/-- Witness for C4 at a concrete all-successful oracle. -/
theorem four_sections_in_order_witness :
    (runMain okOracle aliceW bobW).result = .ok () ∧
    sectionsOf (events (runMain okOracle aliceW bobW)) =
      ["Local Accounts", "Initial balances", "Intermediate balances", "Final balances"] :=
  ⟨rfl, four_sections_in_order okOracle aliceW bobW rfl⟩

/-- C5: If the faucet's funding request for Alice fails, the workflow
terminates immediately with an error whose context references Alice's funding,
and the trace stops at the fund call: no account creation, no balance query,
no transfer and no later step is attempted. -/
theorem fund_failure_aborts_before_transfer (o : Oracle) (a0 b0 : LocalAccount)
    (e : String) (hf : o.fundR = .error e) :
    (runMain o a0 b0).result = .error (.failure ["Failed to fund Alice", e]) ∧
    events (runMain o a0 b0) =
      [.printSection "Local Accounts", .printAddr "Alice" a0.address,
       .printAddr "Bob" b0.address, .fund a0.address 20000] := by
  unfold runMain events
  rw [hf]
  exact ⟨rfl, rfl⟩

/-- Witness for C5 at a concrete oracle whose funding call fails. -/
theorem fund_failure_aborts_before_transfer_witness :
    failFundOracle.fundR = .error "refused" ∧
    ((runMain failFundOracle aliceW bobW).result =
        .error (.failure ["Failed to fund Alice", "refused"]) ∧
      events (runMain failFundOracle aliceW bobW) =
        [.printSection "Local Accounts", .printAddr "Alice" aliceW.address,
         .printAddr "Bob" bobW.address, .fund aliceW.address 20000]) :=
  ⟨rfl, fund_failure_aborts_before_transfer failFundOracle aliceW bobW "refused" rfl⟩

/-- C6: If only the second transfer fails (all earlier steps succeed), the
Intermediate balances section is printed, the Final balances section is not
(the printed sections are exactly the first three), and the run terminates
reporting a transfer failure. -/
theorem second_transfer_failure_stops_before_final (o : Oracle) (a0 b0 : LocalAccount)
    (v0 v1 v2 v3 : Nat) (h1 : TxHash) (e : String)
    (hfd : o.fundR = .ok ()) (hcr : o.createR = .ok ())
    (hb0 : o.balR 0 = .ok v0) (hb1 : o.balR 1 = .ok v1)
    (ht0 : o.transferR 0 = .ok h1) (hw1 : o.waitR h1 = .ok ())
    (hb2 : o.balR 2 = .ok v2) (hb3 : o.balR 3 = .ok v3)
    (ht1 : o.transferR 1 = .error e) :
    sectionsOf (events (runMain o a0 b0)) =
      ["Local Accounts", "Initial balances", "Intermediate balances"] ∧
    (runMain o a0 b0).result =
      .error (.failure ["Failed to transfer coins from Alice to Bob", e]) := by
  unfold runMain events
  simp only [hfd, hcr, hb0, hb1, ht0, hw1, hb2, hb3, ht1]
  exact ⟨rfl, rfl⟩

/-- Witness for C6 at a concrete oracle failing only the second transfer. -/
theorem second_transfer_failure_stops_before_final_witness :
    failSecondTransferOracle.transferR 0 = .ok 42 ∧
    failSecondTransferOracle.transferR 1 = .error "rejected" ∧
    (sectionsOf (events (runMain failSecondTransferOracle aliceW bobW)) =
        ["Local Accounts", "Initial balances", "Intermediate balances"] ∧
      (runMain failSecondTransferOracle aliceW bobW).result =
        .error (.failure ["Failed to transfer coins from Alice to Bob", "rejected"])) :=
  ⟨rfl, rfl, second_transfer_failure_stops_before_final failSecondTransferOracle
    aliceW bobW 100 101 102 103 42 "rejected" rfl rfl rfl rfl rfl rfl rfl rfl rfl⟩

/-- C7: Every failure, at any step of the workflow, is wrapped with a short
human-readable description of which step failed before being propagated to the
top level: a failing run's error is exactly the context message attached at
the failing call site wrapping the underlying error, and that message is one
of the six step-identifying messages of the source. -/
theorem every_failure_contextualised (o : Oracle) (a0 b0 : LocalAccount)
    (err : RunError) (h : (runMain o a0 b0).result = .error err) :
    ∃ msg base, err = .failure [msg, base] ∧ msg ∈ stepMessages := by
  unfold runMain at h
  repeat' split at h
  all_goals simp_all [ctxWrap, stepMessages]
  all_goals refine ⟨_, ⟨_, h.symm⟩, ?_⟩
  all_goals simp

/-- Witness for C7 at a concrete oracle whose funding call fails. -/
theorem every_failure_contextualised_witness :
    (runMain failFundOracle aliceW bobW).result =
      .error (.failure ["Failed to fund Alice", "refused"]) ∧
    (∃ msg base,
      RunError.failure ["Failed to fund Alice", "refused"] = .failure [msg, base] ∧
      msg ∈ stepMessages) :=
  ⟨rfl, every_failure_contextualised failFundOracle aliceW bobW
    (.failure ["Failed to fund Alice", "refused"]) rfl⟩

/-- C8: As its first faucet interaction the orchestrator requests funding of
Alice's address with the fixed amount 20000, and only after that requests
on-chain account creation for Bob; no other faucet operations are issued: in
every run the sequence of faucet effects is a prefix of
[fund alice 20000, createAccount bob], and on success it is exactly that. -/
theorem faucet_ops_fund_then_create_only (o : Oracle) (a0 b0 : LocalAccount) :
    List.IsPrefix ((events (runMain o a0 b0)).filter Effect.isFaucetOp)
      [.fund a0.address 20000, .createAccount b0.address] ∧
    ((runMain o a0 b0).result = .ok () →
      (events (runMain o a0 b0)).filter Effect.isFaucetOp =
        [.fund a0.address 20000, .createAccount b0.address]) := by
  constructor
  · unfold runMain events
    repeat' split
    all_goals simp [List.IsPrefix]
  · intro h
    obtain ⟨v0, v1, v2, v3, v4, v5, h1, h2, hfd, hcr, hb0, hb1, ht0, hw1, hb2, hb3,
      ht1, hw2, hb4, hb5, hrun⟩ := runMain_ok_shape o a0 b0 h
    rw [events, hrun]
    rfl

/-- Witness for C8 at a concrete all-successful oracle. -/
theorem faucet_ops_fund_then_create_only_witness :
    List.IsPrefix ((events (runMain okOracle aliceW bobW)).filter Effect.isFaucetOp)
      [.fund aliceW.address 20000, .createAccount bobW.address] ∧
    ((runMain okOracle aliceW bobW).result = .ok () →
      (events (runMain okOracle aliceW bobW)).filter Effect.isFaucetOp =
        [.fund aliceW.address 20000, .createAccount bobW.address]) :=
  faucet_ops_fund_then_create_only okOracle aliceW bobW

set_option maxHeartbeats 1600000 in
/-- C9: Throughout the whole run, Bob's local account object is never mutated,
and Alice's local account object is mutated only by the two transfer
operations: at every point of the trace Bob's account equals its initial
value, Alice's account is the initial value with zero, one or two SDK transfer
updates applied, it starts unchanged, and it changes between consecutive
points only across a transfer effect. -/
theorem bob_readonly_alice_mutated_only_by_transfers (o : Oracle)
    (a0 b0 : LocalAccount) :
    (∀ p ∈ (runMain o a0 b0).trace, p.2.bob = b0) ∧
    (∀ p ∈ (runMain o a0 b0).trace,
      p.2.alice = a0 ∨ p.2.alice = transferUpd a0 ∨
      p.2.alice = transferUpd (transferUpd a0)) ∧
    (∀ p, (runMain o a0 b0).trace.head? = some p → p.2.alice = a0) ∧
    List.Chain' (fun p q => q.2.alice = p.2.alice ∨ q.1.isTransfer = true)
      (runMain o a0 b0).trace := by
  unfold runMain
  repeat' split
  all_goals dsimp only [List.cons_append, List.nil_append]
  all_goals simp [List.chain'_cons, List.forall_mem_cons]

/-- Witness for C9 at a concrete all-successful oracle. -/
theorem bob_readonly_alice_mutated_only_by_transfers_witness :
    (∀ p ∈ (runMain okOracle aliceW bobW).trace, p.2.bob = bobW) ∧
    (∀ p ∈ (runMain okOracle aliceW bobW).trace,
      p.2.alice = aliceW ∨ p.2.alice = transferUpd aliceW ∨
      p.2.alice = transferUpd (transferUpd aliceW)) ∧
    (∀ p, (runMain okOracle aliceW bobW).trace.head? = some p → p.2.alice = aliceW) ∧
    List.Chain' (fun p q => q.2.alice = p.2.alice ∨ q.1.isTransfer = true)
      (runMain okOracle aliceW bobW).trace :=
  bob_readonly_alice_mutated_only_by_transfers okOracle aliceW bobW

/-- C2: For every environment where a valid override URL is supplied via
APTOS_NODE_URL or APTOS_FAUCET_URL, the resolved node or faucet endpoint
equals (the parse of) that URL; for every environment where a variable is
absent, the corresponding resolved endpoint equals (the parse of) the fixed
devnet default. -/
theorem url_resolution_overrides_and_defaults (parseUrl : String → Option Url)
    (env : Env) :
    (∀ s u, env.node = .ok s → parseUrl s = some u →
      NODE_URL parseUrl env = some u) ∧
    (∀ s u, env.faucet = .ok s → parseUrl s = some u →
      FAUCET_URL parseUrl env = some u) ∧
    (env.node = .error .notPresent →
      NODE_URL parseUrl env = parseUrl NODE_URL_DEFAULT) ∧
    (env.faucet = .error .notPresent →
      FAUCET_URL parseUrl env = parseUrl FAUCET_URL_DEFAULT) := by
  refine ⟨fun s u hs hp => ?_, fun s u hs hp => ?_, fun hn => ?_, fun hf2 => ?_⟩
  · rw [NODE_URL, hs]
    exact hp
  · rw [FAUCET_URL, hs]
    exact hp
  · rw [NODE_URL, hn]
    rfl
  · rw [FAUCET_URL, hf2]
    rfl

/-- Witness for C2: an override on the node variable and an absent faucet
variable, with a parse function accepting everything. -/
theorem url_resolution_overrides_and_defaults_witness :
    (⟨.ok "https://example.org", .error .notPresent⟩ : Env).node =
      .ok "https://example.org" ∧
    idParse "https://example.org" = some "https://example.org" ∧
    NODE_URL idParse ⟨.ok "https://example.org", .error .notPresent⟩ =
      some "https://example.org" ∧
    FAUCET_URL idParse ⟨.ok "https://example.org", .error .notPresent⟩ =
      idParse FAUCET_URL_DEFAULT :=
  ⟨rfl, rfl,
   (url_resolution_overrides_and_defaults idParse
     ⟨.ok "https://example.org", .error .notPresent⟩).1 "https://example.org" _ rfl rfl,
   (url_resolution_overrides_and_defaults idParse
     ⟨.ok "https://example.org", .error .notPresent⟩).2.2.2 rfl⟩

/-- C3: If either APTOS_NODE_URL or APTOS_FAUCET_URL is set to a string that
does not parse as a valid URL, the program fails at startup (the URL unwrap
panics while the clients are constructed) with an empty trace: nothing is
printed and no network call is attempted. -/
theorem invalid_url_fails_at_startup (parseUrl : String → Option Url) (env : Env)
    (o : Oracle) (a0 b0 : LocalAccount) (s : String)
    (hset : env.node = .ok s ∨ env.faucet = .ok s) (hbad : parseUrl s = none) :
    (runProgram parseUrl env o a0 b0).trace = [] ∧
    ∃ m, (runProgram parseUrl env o a0 b0).result = .error (.panic m) := by
  have hcase : NODE_URL parseUrl env = none ∨ FAUCET_URL parseUrl env = none := by
    rcases hset with hs | hs
    · left
      rw [NODE_URL, hs]
      exact hbad
    · right
      rw [FAUCET_URL, hs]
      exact hbad
  unfold runProgram
  rcases hcase with h0 | h0
  · rw [h0]
    exact ⟨rfl, _, rfl⟩
  · rw [h0]
    rcases hN : NODE_URL parseUrl env with _ | u
    · exact ⟨rfl, _, rfl⟩
    · exact ⟨rfl, _, rfl⟩

/-- Witness for C3: a rejecting parse function and an explicitly set node
variable. -/
theorem invalid_url_fails_at_startup_witness :
    ((⟨.ok "not a url", .error .notPresent⟩ : Env).node = .ok "not a url" ∨
      (⟨.ok "not a url", .error .notPresent⟩ : Env).faucet = .ok "not a url") ∧
    noneParse "not a url" = none ∧
    ((runProgram noneParse ⟨.ok "not a url", .error .notPresent⟩ okOracle aliceW bobW).trace = [] ∧
      ∃ m, (runProgram noneParse ⟨.ok "not a url", .error .notPresent⟩ okOracle
        aliceW bobW).result = .error (.panic m)) :=
  ⟨Or.inl rfl, rfl,
   invalid_url_fails_at_startup noneParse ⟨.ok "not a url", .error .notPresent⟩
     okOracle aliceW bobW "not a url" (Or.inl rfl) rfl⟩

/-- C10: If APTOS_NODE_URL or APTOS_FAUCET_URL is set in the environment but
its value is not valid Unicode (std::env::var returns an error rather than a
string), the program silently uses the corresponding default URL instead of
failing at startup: the resolved endpoint is the parse of the default, and
when both defaults parse the workflow runs exactly as it would with no
overrides. -/
theorem non_unicode_env_falls_back_to_default (parseUrl : String → Option Url)
    (env : Env) (o : Oracle) (a0 b0 : LocalAccount) :
    (env.node = .error .notUnicode →
      NODE_URL parseUrl env = parseUrl NODE_URL_DEFAULT) ∧
    (env.faucet = .error .notUnicode →
      FAUCET_URL parseUrl env = parseUrl FAUCET_URL_DEFAULT) ∧
    (env.node = .error .notUnicode → env.faucet = .error .notUnicode →
      (parseUrl NODE_URL_DEFAULT).isSome = true →
      (parseUrl FAUCET_URL_DEFAULT).isSome = true →
      runProgram parseUrl env o a0 b0 = runMain o a0 b0) := by
  refine ⟨fun hn => ?_, fun hf2 => ?_, fun hn hf2 h1 h2 => ?_⟩
  · rw [NODE_URL, hn]
    rfl
  · rw [FAUCET_URL, hf2]
    rfl
  · obtain ⟨u, hu⟩ := Option.isSome_iff_exists.mp h1
    obtain ⟨v, hv⟩ := Option.isSome_iff_exists.mp h2
    unfold runProgram
    rw [NODE_URL, FAUCET_URL, hn, hf2]
    show (match parseUrl NODE_URL_DEFAULT, parseUrl FAUCET_URL_DEFAULT with
      | some _, some _ => runMain o a0 b0
      | _, _ => _) = runMain o a0 b0
    rw [hu, hv]

/-- Witness for C10: both variables present but non-Unicode, with a parse
function accepting everything. -/
theorem non_unicode_env_falls_back_to_default_witness :
    (⟨.error .notUnicode, .error .notUnicode⟩ : Env).node = .error .notUnicode ∧
    (NODE_URL idParse ⟨.error .notUnicode, .error .notUnicode⟩ =
      idParse NODE_URL_DEFAULT ∧
     runProgram idParse ⟨.error .notUnicode, .error .notUnicode⟩ okOracle aliceW bobW =
      runMain okOracle aliceW bobW) :=
  ⟨rfl,
   (non_unicode_env_falls_back_to_default idParse
     ⟨.error .notUnicode, .error .notUnicode⟩ okOracle aliceW bobW).1 rfl,
   (non_unicode_env_falls_back_to_default idParse
     ⟨.error .notUnicode, .error .notUnicode⟩ okOracle aliceW bobW).2.2 rfl rfl rfl rfl⟩

end CoinTransfer
